import Mathlib

/-!
Verification of the VoiceMemo recording core against its specification.

The definitions below are a shallow embedding of the Python sources:
  - `voice_input/state_machine.py` (states, events, effects, `StateMachine.handle`)
  - `voice_input/coordinator.py`   (effect executor fragments, ASR-result merge)
  - `voice_input/audio_queue.py`   (`AudioQueue.put`)
  - `voice_input/asr_client.py`    (`ASRClient._parse_response`)

Python's mutable `dataclass` updates become functional record updates; the
`uuid.uuid4()` draw inside `StateContext.new_session` becomes an explicit
`fresh` argument threaded through `handle`; gzip decompression, JSON parsing
and UTF-8 decoding in the transport parser become oracle function arguments,
since only the parser's control flow matters to the claims.
-/

namespace VoiceMemo

/-- States of the recorder, from `class State(Enum)` in state_machine.py. -/
inductive State where
  | idle
  | arming
  | recording
  | stopping
  | error
deriving DecidableEq, Repr

/-- Event kinds, from `class EventType(Enum)` in state_machine.py. -/
inductive EventType where
  | uStart
  | uStop
  | uQuit
  | sMicPermissionOk
  | sAudioReady
  | sTransportConnected
  | sTransportDisconnected
  | sDefaultInputChanged
  | sSystemWillSleep
  | sSystemDidWake
  | sQueueFlushed
  | sFlushTimeout
  | sAutoRecover
  | eMicPermissionDenied
  | eAccessibilityDenied
  | eAudioDeviceGone
  | eAudioInitFailed
  | eTransportError
  | eNetworkUnavailable
  | eArmingTimeout
deriving DecidableEq, Repr

/-- Events, from `@dataclass class Event` in state_machine.py.  The `data`
field is never read by `StateMachine.handle` and is omitted. -/
structure Event where
  type : EventType
  session_id : Option String := none
  detail : Option String := none
deriving DecidableEq, Repr

/-- Effect kinds, from `class EffectType(Enum)` in state_machine.py. -/
inductive EffectType where
  | checkPermissions
  | initAudio
  | connectTransport
  | startCapture
  | stopCapture
  | closeTransport
  | releaseResources
  | flushQueue
  | updateUi
  | showError
  | showStatus
  | armFlushTimeout
  | cancelFlushTimeout
  | armArmingTimeout
  | cancelArmingTimeout
  | armErrorRecover
  | cancelErrorRecover
  | commitText
deriving DecidableEq, Repr

/-- Payload of an effect: `None`, a string, or a duration in seconds
(the Python floats 5.0, 3.0, 1.0, 0.5 are represented as rationals). -/
inductive EffectData where
  | none
  | str (s : String)
  | dur (seconds : ℚ)
deriving DecidableEq, Repr

/-- Effects, from `@dataclass class Effect` in state_machine.py. -/
structure Effect where
  type : EffectType
  data : EffectData := .none
deriving DecidableEq, Repr

/-- Readiness flags of ARMING, from `@dataclass class ArmingState`. -/
structure ArmingState where
  perm_ok : Bool := false
  audio_ready : Bool := false
  transport_ready : Bool := false
  started : Bool := false
deriving DecidableEq, Repr

/-- Functional rendering of `ArmingState.check_ready`: returns whether the
promotion fires together with the updated flags (the Python method mutates
`self.started` in place). -/
def ArmingState.check_ready (a : ArmingState) : Bool × ArmingState :=
  if a.started then (false, a)
  else if a.perm_ok && a.audio_ready && a.transport_ready then
    (true, { a with started := true })
  else (false, a)

/-- Rendering of `ArmingState.reset`. -/
def ArmingState.reset (_ : ArmingState) : ArmingState :=
  { perm_ok := false, audio_ready := false, transport_ready := false, started := false }

/-- Machine context, from `@dataclass class StateContext`. -/
structure StateContext where
  state : State := .idle
  session_id : Option String := none
  arming : ArmingState := {}
  error_message : Option String := none
  current_text : String := ""
  committed_text : String := ""
deriving DecidableEq, Repr

/-- Rendering of `StateContext.new_session`.  The Python method draws
`str(uuid.uuid4())`; the draw is passed in as `fresh`. -/
def StateContext.new_session (ctx : StateContext) (fresh : String) : String × StateContext :=
  (fresh,
   { ctx with
     session_id := some fresh
     arming := ctx.arming.reset
     current_text := ""
     committed_text := ""
     error_message := none })

/-- Python truthiness of an `Optional[str]`: `None` and the empty string are
falsy. -/
def optTruthy : Option String → Bool
  | Option.none => false
  | some s => s ≠ ""

/-- Rendering of `event.detail or default` (Python `or`: an absent or empty
detail falls through to the default). -/
def optOr (o : Option String) (d : String) : String :=
  match o with
  | Option.none => d
  | some s => if s = "" then d else s

/-- Guard condition of the stale-event filter, line 205 of state_machine.py:
`event.session_id and ctx.session_id and event.session_id != ctx.session_id`. -/
def staleDrop (ctx : StateContext) (event : Event) : Bool :=
  optTruthy event.session_id && optTruthy ctx.session_id
    && decide (event.session_id ≠ ctx.session_id)

/-- Shallow embedding of `StateMachine.handle` from state_machine.py.
`fresh` stands for the `uuid.uuid4()` draw used when a new session is
created; branches that do not create a session ignore it.  Unlisted
(state, event) pairs fall through with `effects = []` and an unchanged
context, exactly as the Python function's default path. -/
def handle (ctx : StateContext) (event : Event) (fresh : String) :
    StateContext × List Effect :=
  if staleDrop ctx event then (ctx, [])
  else
    match ctx.state, event.type with
    -- IDLE
    | .idle, .uStart =>
        let (_, ctx1) := ctx.new_session fresh
        ({ ctx1 with state := .arming },
         [⟨.updateUi, .str "正在初始化..."⟩,
          ⟨.armArmingTimeout, .dur 5⟩,
          ⟨.checkPermissions, .none⟩,
          ⟨.initAudio, .none⟩,
          ⟨.connectTransport, .none⟩])
    | .idle, .eMicPermissionDenied =>
        (ctx, [⟨.showError, .str "请在系统设置中授权麦克风权限"⟩])
    | .idle, .eAccessibilityDenied =>
        (ctx, [⟨.showError, .str "请在系统设置中授权辅助功能权限"⟩])
    -- ARMING
    | .arming, .uStop =>
        ({ ctx with state := .idle, session_id := none },
         [⟨.releaseResources, .none⟩,
          ⟨.updateUi, .str "已取消"⟩])
    | .arming, .sMicPermissionOk =>
        let a := { ctx.arming with perm_ok := true }
        let (ready, a') := a.check_ready
        if ready then
          ({ ctx with state := .recording, arming := a' },
           [⟨.cancelArmingTimeout, .none⟩,
            ⟨.startCapture, .none⟩,
            ⟨.updateUi, .str "请说话..."⟩])
        else ({ ctx with arming := a' }, [])
    | .arming, .sAudioReady =>
        let a := { ctx.arming with audio_ready := true }
        let (ready, a') := a.check_ready
        if ready then
          ({ ctx with state := .recording, arming := a' },
           [⟨.cancelArmingTimeout, .none⟩,
            ⟨.startCapture, .none⟩,
            ⟨.updateUi, .str "请说话..."⟩])
        else ({ ctx with arming := a' }, [])
    | .arming, .sTransportConnected =>
        let a := { ctx.arming with transport_ready := true }
        let (ready, a') := a.check_ready
        if ready then
          ({ ctx with state := .recording, arming := a' },
           [⟨.cancelArmingTimeout, .none⟩,
            ⟨.startCapture, .none⟩,
            ⟨.updateUi, .str "请说话..."⟩])
        else ({ ctx with arming := a' }, [])
    | .arming, .eArmingTimeout =>
        ({ ctx with state := .idle, session_id := none },
         [⟨.releaseResources, .none⟩,
          ⟨.showError, .str "初始化超时，请重试"⟩])
    | .arming, .eMicPermissionDenied =>
        ({ ctx with state := .error, error_message := some "麦克风权限被拒绝" },
         [⟨.cancelArmingTimeout, .none⟩,
          ⟨.releaseResources, .none⟩,
          ⟨.showError, .str "请在系统设置中授权麦克风权限"⟩,
          ⟨.armErrorRecover, .dur 3⟩])
    | .arming, .eAudioInitFailed =>
        let msg := optOr event.detail "音频初始化失败"
        ({ ctx with state := .error, error_message := some msg },
         [⟨.cancelArmingTimeout, .none⟩,
          ⟨.releaseResources, .none⟩,
          ⟨.showError, .str msg⟩,
          ⟨.armErrorRecover, .dur 3⟩])
    | .arming, .eTransportError =>
        ({ ctx with state := .idle, session_id := none },
         [⟨.releaseResources, .none⟩,
          ⟨.showError, .str (optOr event.detail "连接失败，请重试")⟩])
    | .arming, .eNetworkUnavailable =>
        ({ ctx with state := .idle, session_id := none },
         [⟨.releaseResources, .none⟩,
          ⟨.showError, .str "网络不可用，请检查网络连接"⟩])
    -- RECORDING
    | .recording, .uStop =>
        ({ ctx with state := .stopping },
         [⟨.stopCapture, .none⟩,
          ⟨.flushQueue, .none⟩,
          ⟨.armFlushTimeout, .dur 1⟩,
          ⟨.updateUi, .str "正在处理..."⟩])
    | .recording, .sDefaultInputChanged =>
        let (_, ctx1) := ctx.new_session fresh
        ({ ctx1 with state := .arming },
         [⟨.stopCapture, .none⟩,
          ⟨.closeTransport, .none⟩,
          ⟨.updateUi, .str "音频设备变化，正在重新连接..."⟩,
          ⟨.initAudio, .none⟩,
          ⟨.connectTransport, .none⟩])
    | .recording, .sSystemWillSleep =>
        ({ ctx with state := .stopping },
         [⟨.stopCapture, .none⟩,
          ⟨.flushQueue, .none⟩,
          ⟨.armFlushTimeout, .dur (1/2)⟩,
          ⟨.updateUi, .str "系统休眠，正在保存..."⟩])
    | .recording, .eTransportError =>
        ({ ctx with state := .stopping },
         [⟨.stopCapture, .none⟩,
          ⟨.flushQueue, .none⟩,
          ⟨.armFlushTimeout, .dur (1/2)⟩,
          ⟨.showError, .str (optOr event.detail "网络连接中断")⟩])
    | .recording, .eAudioDeviceGone =>
        ({ ctx with state := .stopping },
         [⟨.flushQueue, .none⟩,
          ⟨.armFlushTimeout, .dur (1/2)⟩,
          ⟨.showError, .str "音频设备已断开"⟩])
    -- STOPPING
    | .stopping, .sQueueFlushed =>
        ({ ctx with state := .idle, session_id := none },
         [⟨.cancelFlushTimeout, .none⟩,
          ⟨.closeTransport, .none⟩,
          ⟨.releaseResources, .none⟩,
          ⟨.commitText, .str (ctx.committed_text ++ ctx.current_text)⟩,
          ⟨.updateUi, .none⟩])
    | .stopping, .sFlushTimeout =>
        ({ ctx with state := .idle, session_id := none },
         [⟨.cancelFlushTimeout, .none⟩,
          ⟨.closeTransport, .none⟩,
          ⟨.releaseResources, .none⟩,
          ⟨.commitText, .str (ctx.committed_text ++ ctx.current_text)⟩,
          ⟨.updateUi, .none⟩])
    -- ERROR
    | .error, .uStart =>
        let (_, ctx1) := ctx.new_session fresh
        ({ ctx1 with state := .arming },
         [⟨.cancelErrorRecover, .none⟩,
          ⟨.releaseResources, .none⟩,
          ⟨.updateUi, .str "正在重试..."⟩,
          ⟨.armArmingTimeout, .dur 5⟩,
          ⟨.checkPermissions, .none⟩,
          ⟨.initAudio, .none⟩,
          ⟨.connectTransport, .none⟩])
    | .error, .sAutoRecover =>
        ({ ctx with state := .idle, session_id := none, error_message := none },
         [⟨.releaseResources, .none⟩,
          ⟨.updateUi, .none⟩])
    | .error, .sSystemDidWake =>
        ({ ctx with state := .idle, session_id := none, error_message := none },
         [⟨.cancelErrorRecover, .none⟩,
          ⟨.releaseResources, .none⟩,
          ⟨.updateUi, .none⟩])
    | .error, .uStop =>
        ({ ctx with state := .idle, session_id := none, error_message := none },
         [⟨.releaseResources, .none⟩,
          ⟨.updateUi, .none⟩])
    -- any other (state, event) pair: no transition, no effects
    | _, _ => (ctx, [])

/-!
Trace machinery: runs of `handle` over a list of (event, uuid draw) pairs.
-/

/-- Effect lists emitted step by step along a run of `handle`. -/
def runEffects (ctx : StateContext) : List (Event × String) → List (List Effect)
  | [] => []
  | (e, f) :: rest => (handle ctx e f).2 :: runEffects (handle ctx e f).1 rest

/-- Final context after a run of `handle`. -/
def runCtx (ctx : StateContext) : List (Event × String) → StateContext
  | [] => ctx
  | (e, f) :: rest => runCtx (handle ctx e f).1 rest

/-- Number of ReleaseResources effects in one effect list. -/
def releasesIn (effs : List Effect) : Nat :=
  (effs.filter (fun eff => eff.type = .releaseResources)).length

/-- Total number of ReleaseResources effects over a run. -/
def totalReleases (ls : List (List Effect)) : Nat :=
  (ls.map releasesIn).sum

/-- Boolean test: the run from `ctx` reaches IDLE exactly at the last step of
the trace, and at no earlier step. -/
def segToIdle (ctx : StateContext) : List (Event × String) → Bool
  | [] => false
  | (e, f) :: rest =>
      let c := (handle ctx e f).1
      match rest with
      | [] => c.state = .idle
      | _ :: _ => c.state ≠ .idle && segToIdle c rest

/-- Boolean test: no step of the run lands in the ERROR state. -/
def avoidsError (ctx : StateContext) : List (Event × String) → Bool
  | [] => true
  | (e, f) :: rest =>
      let c := (handle ctx e f).1
      c.state ≠ .error && avoidsError c rest

/-- States in which a session holds resources (everything but IDLE and ERROR). -/
def liveState : State → Bool
  | .arming => true
  | .recording => true
  | .stopping => true
  | _ => false

/-!
Claim C1: the stale-event filter.
-/

/-- C1 counterexample: the claim says the filter also fires when
`ctx.session_id` is `None`.  It does not: from a fresh IDLE context with no
live session, a `UserStart` event stamped with a stale token is processed
normally (the guard on line 205 requires `ctx.session_id` to be truthy), so
the machine moves to ARMING with a non-empty effect list instead of
returning `(ctx, [])`. -/
theorem C1_counterexample :
    (handle {} ⟨.uStart, some "stale", none⟩ "fresh").1.state = State.arming ∧
    (handle {} ⟨.uStart, some "stale", none⟩ "fresh").2 ≠ [] := by
  constructor
  · rfl
  · decide

/-- C1 (amended): if the event carries a non-empty session token, the context
holds a non-empty session token, and the two differ, then `handle` returns the
context unchanged with no effects; this is the first check of every
invocation.  (When `ctx.session_id` is `None` — or either token is the empty
string — the filter does not fire and the event is processed normally.) -/
theorem C1_token_mismatch_dropped (ctx : StateContext) (event : Event)
    (fresh et ct : String)
    (he : event.session_id = some et) (hc : ctx.session_id = some ct)
    (het : et ≠ "") (hct : ct ≠ "") (hne : et ≠ ct) :
    handle ctx event fresh = (ctx, []) := by
  have hdrop : staleDrop ctx event = true := by
    simp [staleDrop, optTruthy, he, hc, het, hct, hne]
  unfold handle
  simp [hdrop]

/-- C1 witness: the mismatch filter at a concrete input. -/
theorem C1_token_mismatch_dropped_witness :
    handle { state := .recording, session_id := some "live" }
      ⟨.uStop, some "stale", none⟩ "f" =
      ({ state := .recording, session_id := some "live" }, []) :=
  C1_token_mismatch_dropped _ _ "f" "stale" "live" rfl rfl
    (by decide) (by decide) (by decide)

/-!
Claim C4: the Stopping → Idle flush transition.
-/

/-- Helper: the STOPPING flush transition of `handle`, shared by the
claims about the flush path and about commit execution. -/
theorem stopping_flush_step (ctx : StateContext) (event : Event)
    (fresh s : String)
    (hst : ctx.state = .stopping) (hs : ctx.session_id = some s)
    (hty : event.type = .sQueueFlushed ∨ event.type = .sFlushTimeout)
    (htk : event.session_id = some s ∨ event.session_id = none) :
    handle ctx event fresh =
      ({ ctx with state := .idle, session_id := none },
       [⟨.cancelFlushTimeout, .none⟩,
        ⟨.closeTransport, .none⟩,
        ⟨.releaseResources, .none⟩,
        ⟨.commitText, .str (ctx.committed_text ++ ctx.current_text)⟩,
        ⟨.updateUi, .none⟩]) := by
  have hdrop : staleDrop ctx event = false := by
    rcases htk with h | h <;> simp [staleDrop, optTruthy, h, hs]
  unfold handle
  rcases hty with h | h <;> simp [hdrop, hst, h]

/-- C4: in STOPPING with a live session, `QueueFlushed` or `FlushTimeout`
moves to IDLE, clears the session, and emits exactly
CancelFlushTimeout; CloseTransport; ReleaseResources;
CommitText(committed_text ++ current_text); UpdateUi(None), in that order. -/
theorem C4_stopping_flush_commits (ctx : StateContext) (event : Event)
    (fresh s : String)
    (hst : ctx.state = .stopping) (hs : ctx.session_id = some s)
    (hty : event.type = .sQueueFlushed ∨ event.type = .sFlushTimeout)
    (htk : event.session_id = some s ∨ event.session_id = none) :
    handle ctx event fresh =
      ({ ctx with state := .idle, session_id := none },
       [⟨.cancelFlushTimeout, .none⟩,
        ⟨.closeTransport, .none⟩,
        ⟨.releaseResources, .none⟩,
        ⟨.commitText, .str (ctx.committed_text ++ ctx.current_text)⟩,
        ⟨.updateUi, .none⟩]) :=
  stopping_flush_step ctx event fresh s hst hs hty htk

/-- C4 witness: the flush transition at a concrete stopping context. -/
theorem C4_stopping_flush_commits_witness :
    handle
      { state := .stopping, session_id := some "s",
        committed_text := "你好", current_text := "。" }
      ⟨.sQueueFlushed, some "s", none⟩ "f" =
      ({ state := .idle, session_id := none,
         committed_text := "你好", current_text := "。" },
       [⟨.cancelFlushTimeout, .none⟩,
        ⟨.closeTransport, .none⟩,
        ⟨.releaseResources, .none⟩,
        ⟨.commitText, .str "你好。"⟩,
        ⟨.updateUi, .none⟩]) :=
  C4_stopping_flush_commits _ _ "f" "s" rfl rfl (Or.inl rfl) (Or.inl rfl)

/-!
Claim C8: AccessibilityDenied while a session is live.
-/

/-- C8 counterexample: the claim says an `AccessibilityDenied` arriving in
ARMING is terminal for the session (hint surfaced, routed to IDLE).  In the
code the ARMING branch has no case for `E_ACCESSIBILITY_DENIED`, so the event
is a no-op: the state stays ARMING, the session stays live, and no effect
(in particular no ShowError, no transition to IDLE) is emitted. -/
theorem C8_counterexample :
    handle { state := .arming, session_id := some "s" }
      ⟨.eAccessibilityDenied, some "s", none⟩ "f" =
      ({ state := .arming, session_id := some "s" }, []) := by
  decide

/-- C8 (amended): an `AccessibilityDenied` event handled in ARMING is ignored
by the state machine — no state change and no effects; the live session is
left in place (it is torn down only by other events, e.g. the arming
timeout).  A permission hint for accessibility is shown only in IDLE. -/
theorem C8_accessibility_denied_ignored (ctx : StateContext) (event : Event)
    (fresh : String)
    (hst : ctx.state = .arming) (hty : event.type = .eAccessibilityDenied) :
    handle ctx event fresh = (ctx, []) := by
  unfold handle
  by_cases hdrop : staleDrop ctx event <;> simp [hdrop, hst, hty]

/-- C8 witness: the no-op at a concrete arming context. -/
theorem C8_accessibility_denied_ignored_witness :
    handle { state := .arming, session_id := some "live" }
      ⟨.eAccessibilityDenied, some "live", none⟩ "f" =
      ({ state := .arming, session_id := some "live" }, []) :=
  C8_accessibility_denied_ignored _ _ "f" rfl rfl

/-!
Claim C6: determinism of `handle`.
-/

/-- C6 counterexample: `StateContext.new_session` draws `str(uuid.uuid4())`,
modelled here by the explicit `fresh` argument.  Two invocations of
`handle` on the same `(ctx, event)` pair with different uuid draws yield
different successor contexts — the session token differs — so the claim that
equal inputs always produce identical results, including the same session
token, fails on the code. -/
theorem C6_counterexample :
    (handle {} ⟨.uStart, none, none⟩ "a").1.session_id = some "a" ∧
    (handle {} ⟨.uStart, none, none⟩ "b").1.session_id = some "b" ∧
    handle {} ⟨.uStart, none, none⟩ "a" ≠ handle {} ⟨.uStart, none, none⟩ "b" := by
  refine ⟨rfl, rfl, ?_⟩
  decide

/-- C6 (amended): `handle` is deterministic up to the freshly drawn session
token: for any two uuid draws, the effect lists are identical, every field of
the successor context except `session_id` is identical, and the session
tokens either coincide or are exactly the two draws (the latter only in the
branches that create a new session). -/
theorem C6_deterministic_up_to_token (ctx : StateContext) (event : Event)
    (t1 t2 : String) :
    (handle ctx event t1).2 = (handle ctx event t2).2 ∧
    (handle ctx event t1).1 =
      { (handle ctx event t2).1 with
        session_id := (handle ctx event t1).1.session_id } ∧
    ((handle ctx event t1).1.session_id = (handle ctx event t2).1.session_id ∨
     ((handle ctx event t1).1.session_id = some t1 ∧
      (handle ctx event t2).1.session_id = some t2)) := by
  obtain ⟨st, sid, arm, em, cur, com⟩ := ctx
  obtain ⟨ty, esid, edet⟩ := event
  unfold handle
  by_cases hdrop : staleDrop ⟨st, sid, arm, em, cur, com⟩ ⟨ty, esid, edet⟩ <;>
    simp only [hdrop, if_true, if_false, Bool.false_eq_true] <;>
    cases st <;> cases ty <;>
    simp [StateContext.new_session, ArmingState.reset]

/-!
Claim C10: the soft-restart on a device change discards the transcript.
-/

/-- Rendering of the transcript merge in `RecordingCoordinator._on_asr_result`
(coordinator.py lines 567-579): results for a session other than the live one
are dropped; a definite result is appended to `committed_text` and clears
`current_text`; a partial replaces `current_text`. -/
def applyAsr (ctx : StateContext) (text : String) (is_definite : Bool)
    (session : String) : StateContext :=
  if ctx.session_id ≠ some session then ctx
  else if is_definite then
    { ctx with committed_text := ctx.committed_text ++ text, current_text := "" }
  else { ctx with current_text := text }

/-- One coordinator-level operation: either a state-machine event (with its
uuid draw) or an ASR result callback. -/
inductive CoordOp where
  | ev (e : Event) (fresh : String)
  | asr (text : String) (is_definite : Bool) (session : String)

/-- Run of coordinator operations, collecting the effect list of each step
(ASR callbacks emit no state-machine effects). -/
def runOps (ctx : StateContext) : List CoordOp → StateContext × List (List Effect)
  | [] => (ctx, [])
  | CoordOp.ev e f :: rest =>
      let r := handle ctx e f
      let rr := runOps r.1 rest
      (rr.1, r.2 :: rr.2)
  | CoordOp.asr t d s :: rest =>
      let rr := runOps (applyAsr ctx t d s) rest
      (rr.1, [] :: rr.2)

/-- C10: handling `DefaultInputChanged` in RECORDING rotates the session via
`new_session`, which resets `committed_text` and `current_text` to the empty
string; consequently the whole future of the new session — including every
later CommitText payload — is independent of the transcript accumulated
before the device change (two pre-change contexts differing only in their
texts produce identical runs afterwards). -/
theorem C10_device_change_resets_transcript (ctx : StateContext) (event : Event)
    (fresh : String)
    (hst : ctx.state = .recording) (hty : event.type = .sDefaultInputChanged)
    (htk : event.session_id = ctx.session_id ∨ event.session_id = none) :
    (handle ctx event fresh).1.committed_text = "" ∧
    (handle ctx event fresh).1.current_text = "" ∧
    (handle ctx event fresh).1.session_id = some fresh ∧
    (handle ctx event fresh).1.state = .arming ∧
    (∀ oldCommitted oldCurrent,
      handle { ctx with committed_text := oldCommitted,
                        current_text := oldCurrent } event fresh =
        handle ctx event fresh) ∧
    (∀ oldCommitted oldCurrent (ops : List CoordOp),
      runOps (handle { ctx with committed_text := oldCommitted,
                                current_text := oldCurrent } event fresh).1 ops =
        runOps (handle ctx event fresh).1 ops) := by
  obtain ⟨st, sid, arm, em, cur, com⟩ := ctx
  obtain ⟨ty, esid, edet⟩ := event
  obtain rfl : st = .recording := hst
  obtain rfl : ty = .sDefaultInputChanged := hty
  have hdrop : ∀ cur' com' : String,
      staleDrop ⟨.recording, sid, arm, em, cur', com'⟩
        ⟨.sDefaultInputChanged, esid, edet⟩ = false := by
    intro cur' com'
    rcases htk with h | h
    · have h' : esid = sid := h
      rw [h']; cases sid <;> simp [staleDrop, optTruthy]
    · have h' : esid = (none : Option String) := h
      rw [h']; simp [staleDrop, optTruthy]
  have hbranch : ∀ oc cc : String,
      handle ⟨.recording, sid, arm, em, cc, oc⟩
          ⟨.sDefaultInputChanged, esid, edet⟩ fresh =
        handle ⟨.recording, sid, arm, em, cur, com⟩
          ⟨.sDefaultInputChanged, esid, edet⟩ fresh := by
    intro oc cc
    unfold handle
    simp [hdrop, StateContext.new_session, ArmingState.reset]
  refine ⟨?_, ?_, ?_, ?_, fun oc cc => hbranch oc cc,
          fun oc cc ops => by rw [hbranch]⟩ <;>
    unfold handle <;> simp [hdrop, StateContext.new_session, ArmingState.reset]

/-- C10 witness: a concrete recording context with accrued transcript. -/
theorem C10_device_change_resets_transcript_witness :
    (handle { state := .recording, session_id := some "old",
              committed_text := "旧文本", current_text := "partial" }
        ⟨.sDefaultInputChanged, some "old", none⟩ "new").1.committed_text = "" ∧
    (handle { state := .recording, session_id := some "old",
              committed_text := "旧文本", current_text := "partial" }
        ⟨.sDefaultInputChanged, some "old", none⟩ "new").1.session_id = some "new" := by
  have h := C10_device_change_resets_transcript
    { state := .recording, session_id := some "old",
      committed_text := "旧文本", current_text := "partial" }
    ⟨.sDefaultInputChanged, some "old", none⟩ "new" rfl rfl (Or.inl rfl)
  exact ⟨h.1, h.2.2.1⟩

/-!
Claim C2: ReleaseResources between UserStart and the next return to Idle.
-/

/-- Helper: releases emitted by a single step from a live (non-ERROR,
non-IDLE) state, classified by the successor state: landing in IDLE emits
exactly one ReleaseResources, staying live emits none, and entering ERROR
emits exactly one. -/
theorem step_release_count (ctx : StateContext) (e : Event) (f : String)
    (hlive : liveState ctx.state = true) :
    ((handle ctx e f).1.state = .idle → releasesIn (handle ctx e f).2 = 1) ∧
    (liveState (handle ctx e f).1.state = true → releasesIn (handle ctx e f).2 = 0) ∧
    ((handle ctx e f).1.state = .error → releasesIn (handle ctx e f).2 = 1) := by
  obtain ⟨st, sid, arm, em, cur, com⟩ := ctx
  obtain ⟨ty, esid, edet⟩ := e
  unfold handle
  by_cases hdrop :
      staleDrop ⟨st, sid, arm, em, cur, com⟩ ⟨ty, esid, edet⟩ <;>
    cases st <;> (try simp [liveState] at hlive) <;> cases ty <;>
    simp [liveState, releasesIn, StateContext.new_session, ArmingState.reset,
      ArmingState.check_ready, hdrop] <;>
    (try split) <;> (try split) <;>
    simp [liveState, releasesIn]

/-- Helper: releases emitted by a single step out of the ERROR state:
landing in IDLE emits exactly one, retrying into ARMING emits exactly one,
staying in ERROR emits none. -/
theorem step_release_count_error (ctx : StateContext) (e : Event) (f : String)
    (herr : ctx.state = .error) :
    ((handle ctx e f).1.state = .idle → releasesIn (handle ctx e f).2 = 1) ∧
    (liveState (handle ctx e f).1.state = true → releasesIn (handle ctx e f).2 = 1) ∧
    ((handle ctx e f).1.state = .error → releasesIn (handle ctx e f).2 = 0) := by
  obtain ⟨st, sid, arm, em, cur, com⟩ := ctx
  obtain ⟨ty, esid, edet⟩ := e
  obtain rfl : st = .error := herr
  unfold handle
  by_cases hdrop :
      staleDrop ⟨.error, sid, arm, em, cur, com⟩ ⟨ty, esid, edet⟩ <;>
    cases ty <;>
    simp [liveState, releasesIn, StateContext.new_session, ArmingState.reset, hdrop]

/-- Helper: over any trace that starts in a live state and first reaches IDLE
exactly at its last step, at least one ReleaseResources is emitted; if the
trace never enters ERROR, exactly one is emitted. -/
theorem seg_release_count (es : List (Event × String)) (ctx : StateContext)
    (hlive : liveState ctx.state = true) (hseg : segToIdle ctx es = true) :
    1 ≤ totalReleases (runEffects ctx es) ∧
    (avoidsError ctx es = true → totalReleases (runEffects ctx es) = 1) := by
  induction es generalizing ctx with
  | nil => simp [segToIdle] at hseg
  | cons p rest ih =>
      obtain ⟨e, f⟩ := p
      have hstep := step_release_count ctx e f hlive
      have hunf : totalReleases (runEffects ctx ((e, f) :: rest)) =
          releasesIn (handle ctx e f).2 +
            totalReleases (runEffects (handle ctx e f).1 rest) := by
        simp [runEffects, totalReleases]
      cases rest with
      | nil =>
          have hidle : (handle ctx e f).1.state = .idle := by
            simpa [segToIdle] using hseg
          rw [hunf]
          simp [runEffects, totalReleases, hstep.1 hidle, avoidsError]
      | cons q qs =>
          have hseg' : (handle ctx e f).1.state ≠ .idle ∧
              segToIdle (handle ctx e f).1 (q :: qs) = true := by
            simpa [segToIdle] using hseg
          rw [hunf]
          by_cases herr : (handle ctx e f).1.state = .error
          · -- the step entered ERROR: one release here, the claim of
            -- exactly-once is vacuous because the trace touches ERROR
            constructor
            · rw [hstep.2.2 herr]; omega
            · intro hav
              have : (handle ctx e f).1.state ≠ .error ∧
                  avoidsError (handle ctx e f).1 (q :: qs) = true := by
                simpa [avoidsError] using hav
              exact absurd herr this.1
          · -- the step stayed live: no release here, recurse
            have hlive' : liveState (handle ctx e f).1.state = true := by
              cases hst : (handle ctx e f).1.state <;>
                simp [liveState] <;> simp [hst] at hseg' herr
            have hrec := ih (handle ctx e f).1 hlive' hseg'.2
            rw [hstep.2.1 hlive']
            refine ⟨by omega, fun hav => ?_⟩
            have hav' : avoidsError (handle ctx e f).1 (q :: qs) = true := by
              simpa [avoidsError, herr] using hav
            simpa using hrec.2 hav'

/-- C2 counterexample: the path UserStart → (ARMING) AudioInitFailed →
(ERROR) AutoRecover → IDLE returns to Idle with ReleaseResources emitted
twice (once on entering ERROR, once on the auto-recovery), refuting
"exactly once on every path". -/
theorem C2_counterexample :
    segToIdle (handle {} ⟨.uStart, none, none⟩ "s1").1
        [(⟨.eAudioInitFailed, some "s1", none⟩, "x"),
         (⟨.sAutoRecover, some "s1", none⟩, "y")] = true ∧
    releasesIn (handle {} ⟨.uStart, none, none⟩ "s1").2 +
      totalReleases (runEffects (handle {} ⟨.uStart, none, none⟩ "s1").1
        [(⟨.eAudioInitFailed, some "s1", none⟩, "x"),
         (⟨.sAutoRecover, some "s1", none⟩, "y")]) = 2 := by
  constructor <;> decide

/-- C2 (amended): on every path that starts a session with `UserStart` in
IDLE and first returns to IDLE at the end of the trace, `ReleaseResources`
is emitted at least once; it is emitted exactly once whenever the path never
enters the ERROR state (paths through ERROR emit one extra release per ERROR
entry and exit, as the counterexample shows). -/
theorem C2_release_at_least_once (ctx : StateContext) (f0 : String)
    (es : List (Event × String))
    (hidle : ctx.state = .idle)
    (hseg : segToIdle (handle ctx ⟨.uStart, none, none⟩ f0).1 es = true) :
    1 ≤ releasesIn (handle ctx ⟨.uStart, none, none⟩ f0).2 +
        totalReleases (runEffects (handle ctx ⟨.uStart, none, none⟩ f0).1 es) ∧
    (avoidsError (handle ctx ⟨.uStart, none, none⟩ f0).1 es = true →
      releasesIn (handle ctx ⟨.uStart, none, none⟩ f0).2 +
        totalReleases (runEffects (handle ctx ⟨.uStart, none, none⟩ f0).1 es) = 1) := by
  have hstart : (handle ctx ⟨.uStart, none, none⟩ f0).1.state = .arming ∧
      releasesIn (handle ctx ⟨.uStart, none, none⟩ f0).2 = 0 := by
    obtain ⟨st, sid, arm, em, cur, com⟩ := ctx
    obtain rfl : st = .idle := hidle
    unfold handle
    simp [staleDrop, optTruthy, releasesIn, StateContext.new_session,
      ArmingState.reset]
  have hlive : liveState (handle ctx ⟨.uStart, none, none⟩ f0).1.state = true := by
    rw [hstart.1]; rfl
  have h := seg_release_count es _ hlive hseg
  rw [hstart.2]
  simpa using h

/-- C2 witness: fast-release path UserStart then UserStop, one release. -/
theorem C2_release_at_least_once_witness :
    1 ≤ releasesIn (handle {} ⟨.uStart, none, none⟩ "w2").2 +
        totalReleases (runEffects (handle {} ⟨.uStart, none, none⟩ "w2").1
          [(⟨.uStop, some "w2", none⟩, "z")]) ∧
    (avoidsError (handle {} ⟨.uStart, none, none⟩ "w2").1
        [(⟨.uStop, some "w2", none⟩, "z")] = true →
      releasesIn (handle {} ⟨.uStart, none, none⟩ "w2").2 +
        totalReleases (runEffects (handle {} ⟨.uStart, none, none⟩ "w2").1
          [(⟨.uStop, some "w2", none⟩, "z")]) = 1) :=
  C2_release_at_least_once {} "w2" [(⟨.uStop, some "w2", none⟩, "z")]
    rfl (by decide)

/-!
Claim C3: the arming promotion fires exactly once.
-/

/-- Readiness events of the ARMING rendezvous. -/
def isReadiness : EventType → Bool
  | .sMicPermissionOk => true
  | .sAudioReady => true
  | .sTransportConnected => true
  | _ => false

/-- Effects of the ARMING → RECORDING promotion (state_machine.py
lines 261-265, 272-276, 283-287: identical in all three branches). -/
def promoEffects : List Effect :=
  [⟨.cancelArmingTimeout, .none⟩,
   ⟨.startCapture, .none⟩,
   ⟨.updateUi, .str "请说话..."⟩]

/-- Number of steps of a run that emit a StartCapture effect. -/
def countStartCapture (ls : List (List Effect)) : Nat :=
  (ls.filter (fun effs => effs.any (fun eff => eff.type = .startCapture))).length

/-- Boolean test: the flags already latched plus the events of the trace
cover all three readiness conditions. -/
def coversAll (a : ArmingState) (es : List (Event × String)) : Bool :=
  (a.perm_ok || es.any (fun p => p.1.type = .sMicPermissionOk)) &&
  (a.audio_ready || es.any (fun p => p.1.type = .sAudioReady)) &&
  (a.transport_ready || es.any (fun p => p.1.type = .sTransportConnected))

/-- Helper: an event stamped with the live token (or carrying no token)
passes the stale filter. -/
theorem staleDrop_false_of_match (ctx : StateContext) (e : Event)
    (h : e.session_id = ctx.session_id ∨ e.session_id = none) :
    staleDrop ctx e = false := by
  rcases h with h | h <;> rw [staleDrop, h] <;>
    cases hc : ctx.session_id <;> simp [optTruthy]

/-- Helper: a readiness event delivered in RECORDING is a no-op (the
RECORDING branch has no case for the three readiness kinds). -/
theorem readiness_noop_in_recording (ctx : StateContext) (e : Event) (f : String)
    (hst : ctx.state = .recording) (hre : isReadiness e.type = true) :
    handle ctx e f = (ctx, []) := by
  obtain ⟨st, sid, arm, em, cur, com⟩ := ctx
  obtain ⟨ty, esid, edet⟩ := e
  obtain rfl : st = .recording := hst
  unfold handle
  by_cases hdrop :
      staleDrop ⟨.recording, sid, arm, em, cur, com⟩ ⟨ty, esid, edet⟩ <;>
    cases ty <;> simp_all [isReadiness]

/-- Helper: a whole run of readiness events from RECORDING emits nothing. -/
theorem readiness_run_in_recording (es : List (Event × String))
    (ctx : StateContext) (hst : ctx.state = .recording)
    (hr : ∀ p ∈ es, isReadiness p.1.type = true) :
    countStartCapture (runEffects ctx es) = 0 ∧
    ∀ l ∈ runEffects ctx es, l = [] := by
  induction es generalizing ctx with
  | nil => simp [runEffects, countStartCapture]
  | cons hd tl ih =>
      obtain ⟨e, f⟩ := hd
      have hnoop := readiness_noop_in_recording ctx e f hst
        (hr _ (List.mem_cons_self _ _))
      have htl := ih ctx hst (fun p hp => hr p (List.mem_cons_of_mem _ hp))
      have h2 : runEffects ctx ((e, f) :: tl) = [] :: runEffects ctx tl := by
        simp [runEffects, hnoop]
      rw [h2]
      refine ⟨?_, fun l hl => ?_⟩
      · simpa [countStartCapture] using htl.1
      · rcases List.mem_cons.mp hl with rfl | hl
        · rfl
        · exact htl.2 l hl

/-- Helper: counting StartCapture steps, cons case. -/
theorem countStartCapture_cons (l : List Effect) (ls : List (List Effect)) :
    countStartCapture (l :: ls) =
      (if l.any (fun eff => eff.type = .startCapture) then 1 else 0) +
        countStartCapture ls := by
  simp only [countStartCapture, List.filter_cons]
  split
  · simp_all
    omega
  · simp_all

/-- Helper: over any trace of readiness events for the live session from an
ARMING context whose `started` latch is clear and whose latched flags do not
yet cover all three conditions, the promotion fires exactly once when the
flags plus the trace cover all three conditions, otherwise not at all; and
every step emits either nothing or exactly the promotion effect list. -/
theorem arming_run_count (es : List (Event × String)) :
    ∀ (p au tr : Bool) (em : Option String) (cur com s : String),
      (p && au && tr) = false →
      (∀ q ∈ es, isReadiness q.1.type = true ∧
        (q.1.session_id = some s ∨ q.1.session_id = none)) →
      countStartCapture
          (runEffects ⟨.arming, some s, ⟨p, au, tr, false⟩, em, cur, com⟩ es) =
        (if coversAll ⟨p, au, tr, false⟩ es then 1 else 0) ∧
      ∀ l ∈ runEffects ⟨.arming, some s, ⟨p, au, tr, false⟩, em, cur, com⟩ es,
        l = [] ∨ l = promoEffects := by
  induction es with
  | nil =>
      intro p au tr em cur com s hnr hr
      simp [runEffects, countStartCapture, coversAll, hnr]
  | cons hd tl ih =>
      intro p au tr em cur com s hnr hr
      obtain ⟨e, f⟩ := hd
      obtain ⟨ty, esid, edet⟩ := e
      obtain ⟨hrt, hrtok⟩ := hr _ (List.mem_cons_self _ _)
      have hrtl := fun q hq => hr q (List.mem_cons_of_mem _ hq)
      have hdrop : staleDrop ⟨.arming, some s, ⟨p, au, tr, false⟩, em, cur, com⟩
          ⟨ty, esid, edet⟩ = false :=
        staleDrop_false_of_match _ _ (by simpa using hrtok)
      cases ty <;> (try simp [isReadiness] at hrt)
      case sMicPermissionOk =>
        by_cases hready : (au && tr) = true
        · have hstep : handle ⟨.arming, some s, ⟨p, au, tr, false⟩, em, cur, com⟩
              ⟨.sMicPermissionOk, esid, edet⟩ f =
              (⟨.recording, some s, ⟨true, au, tr, true⟩, em, cur, com⟩,
               promoEffects) := by
            unfold handle
            simp [hdrop, ArmingState.check_ready, hready, promoEffects]
          have hrec := readiness_run_in_recording tl
            ⟨.recording, some s, ⟨true, au, tr, true⟩, em, cur, com⟩ rfl
            (fun q hq => (hrtl q hq).1)
          have hrun : runEffects ⟨.arming, some s, ⟨p, au, tr, false⟩, em, cur, com⟩
              ((⟨⟨.sMicPermissionOk, esid, edet⟩, f⟩ : Event × String) :: tl) =
              promoEffects ::
                runEffects ⟨.recording, some s, ⟨true, au, tr, true⟩, em, cur, com⟩ tl := by
            simp [runEffects, hstep]
          have hpair : au = true ∧ tr = true := by simpa using hready
          have hcov : coversAll ⟨p, au, tr, false⟩
              ((⟨⟨.sMicPermissionOk, esid, edet⟩, f⟩ : Event × String) :: tl) = true := by
            simp [coversAll, hpair.1, hpair.2]
          rw [hrun, hcov, countStartCapture_cons]
          refine ⟨?_, fun l hl => ?_⟩
          · simp [promoEffects, hrec.1]
          · rcases List.mem_cons.mp hl with rfl | hl
            · exact Or.inr rfl
            · exact Or.inl (hrec.2 l hl)
        · have hready' : (au && tr) = false := by simpa using hready
          have hstep : handle ⟨.arming, some s, ⟨p, au, tr, false⟩, em, cur, com⟩
              ⟨.sMicPermissionOk, esid, edet⟩ f =
              (⟨.arming, some s, ⟨true, au, tr, false⟩, em, cur, com⟩, []) := by
            unfold handle
            simp [hdrop, ArmingState.check_ready, hready']
          have hih := ih true au tr em cur com s (by simpa using hready') hrtl
          have hrun : runEffects ⟨.arming, some s, ⟨p, au, tr, false⟩, em, cur, com⟩
              ((⟨⟨.sMicPermissionOk, esid, edet⟩, f⟩ : Event × String) :: tl) =
              [] :: runEffects ⟨.arming, some s, ⟨true, au, tr, false⟩, em, cur, com⟩ tl := by
            simp [runEffects, hstep]
          have hcov : coversAll ⟨p, au, tr, false⟩
              ((⟨⟨.sMicPermissionOk, esid, edet⟩, f⟩ : Event × String) :: tl) =
              coversAll ⟨true, au, tr, false⟩ tl := by
            simp [coversAll]
          rw [hrun, hcov, countStartCapture_cons]
          refine ⟨?_, fun l hl => ?_⟩
          · simpa using hih.1
          · rcases List.mem_cons.mp hl with rfl | hl
            · exact Or.inl rfl
            · exact hih.2 l hl
      case sAudioReady =>
        by_cases hready : (p && tr) = true
        · have hstep : handle ⟨.arming, some s, ⟨p, au, tr, false⟩, em, cur, com⟩
              ⟨.sAudioReady, esid, edet⟩ f =
              (⟨.recording, some s, ⟨p, true, tr, true⟩, em, cur, com⟩,
               promoEffects) := by
            unfold handle
            simp [hdrop, ArmingState.check_ready, hready, promoEffects]
          have hrec := readiness_run_in_recording tl
            ⟨.recording, some s, ⟨p, true, tr, true⟩, em, cur, com⟩ rfl
            (fun q hq => (hrtl q hq).1)
          have hrun : runEffects ⟨.arming, some s, ⟨p, au, tr, false⟩, em, cur, com⟩
              ((⟨⟨.sAudioReady, esid, edet⟩, f⟩ : Event × String) :: tl) =
              promoEffects ::
                runEffects ⟨.recording, some s, ⟨p, true, tr, true⟩, em, cur, com⟩ tl := by
            simp [runEffects, hstep]
          have hpair : p = true ∧ tr = true := by simpa using hready
          have hcov : coversAll ⟨p, au, tr, false⟩
              ((⟨⟨.sAudioReady, esid, edet⟩, f⟩ : Event × String) :: tl) = true := by
            simp [coversAll, hpair.1, hpair.2]
          rw [hrun, hcov, countStartCapture_cons]
          refine ⟨?_, fun l hl => ?_⟩
          · simp [promoEffects, hrec.1]
          · rcases List.mem_cons.mp hl with rfl | hl
            · exact Or.inr rfl
            · exact Or.inl (hrec.2 l hl)
        · have hready' : (p && tr) = false := by simpa using hready
          have hstep : handle ⟨.arming, some s, ⟨p, au, tr, false⟩, em, cur, com⟩
              ⟨.sAudioReady, esid, edet⟩ f =
              (⟨.arming, some s, ⟨p, true, tr, false⟩, em, cur, com⟩, []) := by
            unfold handle
            simp [hdrop, ArmingState.check_ready, hready']
          have hih := ih p true tr em cur com s (by simpa using hready') hrtl
          have hrun : runEffects ⟨.arming, some s, ⟨p, au, tr, false⟩, em, cur, com⟩
              ((⟨⟨.sAudioReady, esid, edet⟩, f⟩ : Event × String) :: tl) =
              [] :: runEffects ⟨.arming, some s, ⟨p, true, tr, false⟩, em, cur, com⟩ tl := by
            simp [runEffects, hstep]
          have hcov : coversAll ⟨p, au, tr, false⟩
              ((⟨⟨.sAudioReady, esid, edet⟩, f⟩ : Event × String) :: tl) =
              coversAll ⟨p, true, tr, false⟩ tl := by
            simp [coversAll]
          rw [hrun, hcov, countStartCapture_cons]
          refine ⟨?_, fun l hl => ?_⟩
          · simpa using hih.1
          · rcases List.mem_cons.mp hl with rfl | hl
            · exact Or.inl rfl
            · exact hih.2 l hl
      case sTransportConnected =>
        by_cases hready : (p && au) = true
        · have hstep : handle ⟨.arming, some s, ⟨p, au, tr, false⟩, em, cur, com⟩
              ⟨.sTransportConnected, esid, edet⟩ f =
              (⟨.recording, some s, ⟨p, au, true, true⟩, em, cur, com⟩,
               promoEffects) := by
            unfold handle
            simp [hdrop, ArmingState.check_ready, hready, promoEffects]
          have hrec := readiness_run_in_recording tl
            ⟨.recording, some s, ⟨p, au, true, true⟩, em, cur, com⟩ rfl
            (fun q hq => (hrtl q hq).1)
          have hrun : runEffects ⟨.arming, some s, ⟨p, au, tr, false⟩, em, cur, com⟩
              ((⟨⟨.sTransportConnected, esid, edet⟩, f⟩ : Event × String) :: tl) =
              promoEffects ::
                runEffects ⟨.recording, some s, ⟨p, au, true, true⟩, em, cur, com⟩ tl := by
            simp [runEffects, hstep]
          have hpair : p = true ∧ au = true := by simpa using hready
          have hcov : coversAll ⟨p, au, tr, false⟩
              ((⟨⟨.sTransportConnected, esid, edet⟩, f⟩ : Event × String) :: tl) = true := by
            simp [coversAll, hpair.1, hpair.2]
          rw [hrun, hcov, countStartCapture_cons]
          refine ⟨?_, fun l hl => ?_⟩
          · simp [promoEffects, hrec.1]
          · rcases List.mem_cons.mp hl with rfl | hl
            · exact Or.inr rfl
            · exact Or.inl (hrec.2 l hl)
        · have hready' : (p && au) = false := by simpa using hready
          have hstep : handle ⟨.arming, some s, ⟨p, au, tr, false⟩, em, cur, com⟩
              ⟨.sTransportConnected, esid, edet⟩ f =
              (⟨.arming, some s, ⟨p, au, true, false⟩, em, cur, com⟩, []) := by
            unfold handle
            simp [hdrop, ArmingState.check_ready, hready']
          have hih := ih p au true em cur com s (by simpa using hready') hrtl
          have hrun : runEffects ⟨.arming, some s, ⟨p, au, tr, false⟩, em, cur, com⟩
              ((⟨⟨.sTransportConnected, esid, edet⟩, f⟩ : Event × String) :: tl) =
              [] :: runEffects ⟨.arming, some s, ⟨p, au, true, false⟩, em, cur, com⟩ tl := by
            simp [runEffects, hstep]
          have hcov : coversAll ⟨p, au, tr, false⟩
              ((⟨⟨.sTransportConnected, esid, edet⟩, f⟩ : Event × String) :: tl) =
              coversAll ⟨p, au, true, false⟩ tl := by
            simp [coversAll]
          rw [hrun, hcov, countStartCapture_cons]
          refine ⟨?_, fun l hl => ?_⟩
          · simpa using hih.1
          · rcases List.mem_cons.mp hl with rfl | hl
            · exact Or.inl rfl
            · exact hih.2 l hl

/-- C3: from a freshly armed context (all readiness flags and the `started`
latch clear), over any trace of readiness events for the live session —
any order, with arbitrary repetitions — the promotion effects
(CancelArmingTimeout, StartCapture, UpdateUi) are emitted in exactly one
step if the trace delivers all three readiness kinds and in no step
otherwise; every step emits either nothing or exactly the promotion list,
and after the `started` latch is set (the machine is in RECORDING) further
readiness events emit nothing. -/
theorem C3_promotion_exactly_once (s : String) (es : List (Event × String))
    (ctx : StateContext)
    (hst : ctx.state = .arming) (hsid : ctx.session_id = some s)
    (harm : ctx.arming = {})
    (hr : ∀ q ∈ es, isReadiness q.1.type = true ∧
      (q.1.session_id = some s ∨ q.1.session_id = none)) :
    countStartCapture (runEffects ctx es) =
      (if (es.any (fun q => q.1.type = .sMicPermissionOk) &&
           es.any (fun q => q.1.type = .sAudioReady) &&
           es.any (fun q => q.1.type = .sTransportConnected)) then 1 else 0) ∧
    countStartCapture (runEffects ctx es) ≤ 1 ∧
    ∀ l ∈ runEffects ctx es, l = [] ∨ l = promoEffects := by
  obtain ⟨st, sid, arm, em, cur, com⟩ := ctx
  obtain rfl : st = .arming := hst
  obtain rfl : sid = some s := hsid
  obtain rfl : arm = ({} : ArmingState) := harm
  have h := arming_run_count es false false false em cur com s rfl hr
  have hcov : coversAll ({} : ArmingState) es =
      (es.any (fun q => q.1.type = .sMicPermissionOk) &&
       es.any (fun q => q.1.type = .sAudioReady) &&
       es.any (fun q => q.1.type = .sTransportConnected)) := by
    simp [coversAll]
  refine ⟨?_, ?_, h.2⟩
  · rw [h.1, hcov]
  · rw [h.1]
    split <;> omega

/-- C3 witness: duplicated and out-of-order readiness events for a concrete
session promote exactly once. -/
theorem C3_promotion_exactly_once_witness :
    countStartCapture (runEffects
      { state := .arming, session_id := some "s3" }
      [(⟨.sMicPermissionOk, some "s3", none⟩, "a"),
       (⟨.sMicPermissionOk, none, none⟩, "b"),
       (⟨.sTransportConnected, some "s3", none⟩, "c"),
       (⟨.sAudioReady, none, none⟩, "d"),
       (⟨.sAudioReady, some "s3", none⟩, "e")]) = 1 := by
  have h := C3_promotion_exactly_once "s3"
    [(⟨.sMicPermissionOk, some "s3", none⟩, "a"),
     (⟨.sMicPermissionOk, none, none⟩, "b"),
     (⟨.sTransportConnected, some "s3", none⟩, "c"),
     (⟨.sAudioReady, none, none⟩, "d"),
     (⟨.sAudioReady, some "s3", none⟩, "e")]
    { state := .arming, session_id := some "s3" }
    rfl rfl rfl (by decide)
  rw [h.1]
  decide

/-!
Claim C7: audio queue overflow behaviour (audio_queue.py).
-/

/-- Audio frame, from `@dataclass class AudioFrame` in audio_queue.py. -/
structure AudioFrame where
  session_id : String
  data : List Nat
  timestamp : ℚ
deriving DecidableEq, Repr

/-- Audio queue state, from `class AudioQueue` in audio_queue.py: the
`deque(maxlen=max_frames)` is modelled as a list holding at most
`max_frames` elements, newest last. -/
structure AudioQueue where
  max_frames : Nat
  q : List AudioFrame
  closed : Bool
  total_put : Nat
  total_dropped : Nat
  total_get : Nat
deriving DecidableEq, Repr

/-- Rendering of `AudioQueue.__init__(max_duration_ms, frame_ms)`:
`max_frames = max(max_duration_ms // frame_ms, 1)`, empty open queue. -/
def AudioQueue.init (max_duration_ms frame_ms : Nat) : AudioQueue :=
  { max_frames := max (max_duration_ms / frame_ms) 1
    q := []
    closed := false
    total_put := 0
    total_dropped := 0
    total_get := 0 }

/-- Rendering of `AudioQueue.put(data, session_id)`.  `now` stands for
`time.time()`.  A `deque(maxlen=N)` append keeps the `N` newest frames,
silently evicting from the left; the method counts a drop when the queue is
already full, then appends, then counts the put, and returns `True` unless
the queue is closed.  It never blocks. -/
def AudioQueue.put (self : AudioQueue) (data : List Nat) (session_id : String)
    (now : ℚ) : AudioQueue × Bool :=
  if self.closed then (self, false)
  else
    let frame : AudioFrame := ⟨session_id, data, now⟩
    let dropped :=
      if self.max_frames ≤ self.q.length then self.total_dropped + 1
      else self.total_dropped
    let q' := (self.q ++ [frame]).drop (self.q.length + 1 - self.max_frames)
    ({ self with q := q', total_dropped := dropped,
                 total_put := self.total_put + 1 }, true)

/-- C7: the Coordinator's queue (`AudioQueue(max_duration_ms=2000,
frame_ms=100)`, coordinator.py line 76) has capacity 20; when such a queue
already holds exactly 20 frames and is open, the next put succeeds without
blocking, evicts the oldest frame keeping the 20 newest, and increments the
drop counter by exactly one. -/
theorem C7_queue_overflow_evicts_oldest (qu : AudioQueue)
    (data : List Nat) (sid : String) (now : ℚ)
    (hmax : qu.max_frames = 20) (hopen : qu.closed = false)
    (hlen : qu.q.length = 20) :
    (AudioQueue.init 2000 100).max_frames = 20 ∧
    (qu.put data sid now).2 = true ∧
    (qu.put data sid now).1.q = qu.q.drop 1 ++ [⟨sid, data, now⟩] ∧
    (qu.put data sid now).1.q.length = 20 ∧
    (qu.put data sid now).1.total_dropped = qu.total_dropped + 1 := by
  have hdrop1 : qu.q.length + 1 - qu.max_frames = 1 := by omega
  have happ : (qu.q ++ [(⟨sid, data, now⟩ : AudioFrame)]).drop 1 =
      qu.q.drop 1 ++ [⟨sid, data, now⟩] :=
    List.drop_append_of_le_length (by omega)
  refine ⟨rfl, ?_, ?_, ?_, ?_⟩ <;>
    simp [AudioQueue.put, hopen, hdrop1, happ, hmax, hlen]

/-- C7 witness: a concrete full queue of 20 frames. -/
theorem C7_queue_overflow_evicts_oldest_witness :
    ((({ max_frames := 20, q := List.replicate 20 ⟨"s", [1], 0⟩,
         closed := false, total_put := 20, total_dropped := 0,
         total_get := 0 } : AudioQueue).put [2] "s" 1).1).total_dropped = 0 + 1 := by
  have h := C7_queue_overflow_evicts_oldest
    { max_frames := 20, q := List.replicate 20 ⟨"s", [1], 0⟩,
      closed := false, total_put := 20, total_dropped := 0, total_get := 0 }
    [2] "s" 1 rfl rfl (by simp)
  exact h.2.2.2.2

/-!
Claim C5: commit-effect execution (coordinator.py lines 277-281).
-/

/-- Rendering of the COMMIT_TEXT branch of
`RecordingCoordinator._execute_effect`: the guard is Python
`if data and self.callbacks.on_text_commit:` — the commit callback is
scheduled on the main thread with `data` only when `data` is truthy (a
non-empty string) and the callback is configured.  The returned list holds
the arguments of the scheduled commit invocations. -/
def commitCallsOfEffect (hasCommitCallback : Bool) (eff : Effect) : List String :=
  match eff.type, eff.data with
  | .commitText, .str d => if d ≠ "" && hasCommitCallback then [d] else []
  | _, _ => []

/-- Commit invocations scheduled while executing an effect list in order. -/
def commitCallsOf (hasCommitCallback : Bool) (effs : List Effect) : List String :=
  (effs.map (commitCallsOfEffect hasCommitCallback)).flatten

/-- C5 counterexample: the Stopping → Idle transition of a session with no
accrued transcript emits a `CommitText` effect whose payload is the empty
string, and executing that effect list invokes the commit callback zero
times (even though the callback is configured) — the executor's truthiness
guard drops empty transcripts, contradicting "including when that transcript
is the empty string". -/
theorem C5_counterexample :
    (⟨.commitText, .str ""⟩ : Effect) ∈
      (handle { state := .stopping, session_id := some "s" }
        ⟨.sQueueFlushed, some "s", none⟩ "f").2 ∧
    commitCallsOf true
      (handle { state := .stopping, session_id := some "s" }
        ⟨.sQueueFlushed, some "s", none⟩ "f").2 = [] := by
  constructor <;> decide

/-- C5 (amended): for every CommitText effect executed by the effect
executor, the commit callback is invoked with the finalized transcript
exactly when that transcript is non-empty (and the callback is configured);
an empty transcript is silently dropped.  In particular, executing the
effects of a Stopping → Idle flush transition invokes the callback once
with `committed_text ++ current_text` when that concatenation is non-empty,
and not at all when it is empty. -/
theorem C5_commit_callback_nonempty (ctx : StateContext) (event : Event)
    (fresh s : String)
    (hst : ctx.state = .stopping) (hs : ctx.session_id = some s)
    (hty : event.type = .sQueueFlushed ∨ event.type = .sFlushTimeout)
    (htk : event.session_id = some s ∨ event.session_id = none) :
    commitCallsOf true (handle ctx event fresh).2 =
      (if ctx.committed_text ++ ctx.current_text = "" then []
       else [ctx.committed_text ++ ctx.current_text]) := by
  rw [stopping_flush_step ctx event fresh s hst hs hty htk]
  by_cases h : ctx.committed_text ++ ctx.current_text = "" <;>
    simp [commitCallsOf, commitCallsOfEffect, h]

/-- C5 witness: a non-empty transcript is forwarded to the commit callback. -/
theorem C5_commit_callback_nonempty_witness :
    commitCallsOf true
      (handle { state := .stopping, session_id := some "w5",
                committed_text := "你好", current_text := "。" }
        ⟨.sFlushTimeout, none, none⟩ "f").2 = ["你好。"] := by
  have h := C5_commit_callback_nonempty
    { state := .stopping, session_id := some "w5",
      committed_text := "你好", current_text := "。" }
    ⟨.sFlushTimeout, none, none⟩ "f" "w5" rfl rfl (Or.inr rfl) (Or.inr rfl)
  simpa using h

/-!
Claim C9: server frame parsing (`ASRClient._parse_response`, asr_client.py
lines 115-179).  Gzip decompression, JSON parsing and UTF-8 decoding are
modelled as oracle function arguments (`gunzip`, `jparse`, `decodeUtf8`):
only the parser's control flow decides the claim, and the theorems hold for
every choice of oracles.  Exception texts interpolated into the Python
detail strings are elided, keeping the constant prefixes.
-/

/-- Decoded JSON view of a full server response, as read by the parser:
whether the top-level object has a `result` key, the `result.text` string
(absent key defaulting to ""), and the `definite` flag of each entry of
`result.utterances`. -/
structure SrvJson where
  hasResult : Bool
  text : String
  utterances : List Bool
deriving DecidableEq, Repr

/-- Outcome of `payload.decode('utf-8')` followed by `json.loads` and the
field accesses the code then performs.  `ok j` summarises a payload for
which all of them succeed (`j.hasResult` is `'result' in result`, `j.text`
is `result['result'].get('text', '')`, `j.utterances` the `definite` flag of
each utterance object).  `jsonError` is a `json.JSONDecodeError` — the only
exception the code catches (asr_client.py line 177).  `raised` is any other
exception: `UnicodeDecodeError` from `decode('utf-8')` on non-UTF-8 bytes,
or `TypeError`/`AttributeError` when the decoded JSON's top level,
`result` value, or last utterance is not an object; these propagate
uncaught out of `_parse_response`, so no callback is made. -/
inductive JsonParse where
  | ok (j : SrvJson)
  | jsonError
  | raised
deriving DecidableEq, Repr

/-- Observable outcome of parsing one server frame: the details passed to
`on_error` (which the Coordinator turns into TransportError events), the
`(text, is_definite)` pairs passed to `on_result`, and whether an uncaught
exception propagated out of the parser (in which case neither callback was
invoked). -/
structure ParseOut where
  errCalls : List String
  resCalls : List (String × Bool)
  raised : Bool
deriving DecidableEq, Repr

/-- Big-endian 32-bit read, `struct.unpack('>I', ...)[0]`. -/
def be32 (b0 b1 b2 b3 : Nat) : Nat :=
  ((b0 * 256 + b1) * 256 + b2) * 256 + b3

/-- Header field `msg_type = (header[1] >> 4) & 0x0F`. -/
def msgTypeOf (data : List Nat) : Nat := data.getD 1 0 / 16 % 16

/-- Header field `msg_flags = header[1] & 0x0F`. -/
def msgFlagsOf (data : List Nat) : Nat := data.getD 1 0 % 16

/-- Header field `compress = header[2] & 0x0F`. -/
def compressOf (data : List Nat) : Nat := data.getD 2 0 % 16

/-- Payload-size offset: `4 + (4 if has_sequence else 0)`, where flags bit 0
marks an optional 4-byte sequence number. -/
def respOffset (data : List Nat) : Nat :=
  4 + (if msgFlagsOf data % 2 = 1 then 4 else 0)

/-- Declared payload size of a full server response. -/
def payloadSizeOf (data : List Nat) : Nat :=
  be32 (data.getD (respOffset data) 0) (data.getD (respOffset data + 1) 0)
    (data.getD (respOffset data + 2) 0) (data.getD (respOffset data + 3) 0)

/-- Payload slice `data[offset+4 : offset+4+payload_size]`. -/
def payloadOf (data : List Nat) : List Nat :=
  (data.drop (respOffset data + 4)).take (payloadSizeOf data)

/-- Shallow embedding of `ASRClient._parse_response`.  Frames shorter than
the 4-byte header, and full server responses whose declared payload does not
fit, return with only a log line (no callback); error frames always invoke
the error callback (the gzip-branch `except Exception` makes gzip failures
an error callback too); a `json.JSONDecodeError` is caught and invokes the
error callback; any other exception of the decode/parse/access sequence
(`UnicodeDecodeError`, `TypeError`, `AttributeError`) propagates uncaught —
`raised` — with no callback; a successful parse with a `result` key invokes
the result callback with `result.text` and the last utterance's `definite`
flag (`false` when `utterances` is absent or empty). -/
def parseResponse (gunzip : List Nat → Option (List Nat))
    (jparse : List Nat → JsonParse) (decodeUtf8 : List Nat → String)
    (data : List Nat) : ParseOut :=
  if data.length < 4 then ⟨[], [], false⟩
  else if msgTypeOf data = 15 then
    if 12 ≤ data.length then
      let error_code := be32 (data.getD 4 0) (data.getD 5 0)
        (data.getD 6 0) (data.getD 7 0)
      let error_size := be32 (data.getD 8 0) (data.getD 9 0)
        (data.getD 10 0) (data.getD 11 0)
      let error_msg :=
        if 12 + error_size ≤ data.length then
          decodeUtf8 ((data.drop 12).take error_size)
        else "响应数据不完整"
      ⟨["错误 " ++ toString error_code ++ ": " ++ error_msg], [], false⟩
    else ⟨["收到错误响应但数据不完整"], [], false⟩
  else if msgTypeOf data = 9 then
    if data.length < respOffset data + 4 then ⟨[], [], false⟩
    else if data.length < respOffset data + 4 + payloadSizeOf data then
      ⟨[], [], false⟩
    else
      match (if compressOf data = 1 then gunzip (payloadOf data)
             else some (payloadOf data)) with
      | Option.none => ⟨["数据解压失败"], [], false⟩
      | some p =>
          match jparse p with
          | .jsonError => ⟨["结果解析失败"], [], false⟩
          | .raised => ⟨[], [], true⟩
          | .ok j =>
              if j.hasResult then
                ⟨[], [(j.text, (j.utterances.getLast?).getD false)], false⟩
              else ⟨[], [], false⟩
  else ⟨[], [], false⟩

/-- C9 counterexample: frames shorter than the 4-byte header are dropped
with only a warning log — the error callback is NOT invoked, contradicting
"emits TransportError with a detail" for every malformed frame.  (The
oracles are irrelevant: the length check fires first.) -/
theorem C9_counterexample :
    parseResponse (fun _ => Option.none) (fun _ => JsonParse.raised)
        (fun _ => "") [] = ⟨[], [], false⟩ ∧
    parseResponse (fun _ => Option.none) (fun _ => JsonParse.raised)
        (fun _ => "") [17, 145, 1] = ⟨[], [], false⟩ := by
  constructor <;> rfl

/-- C9 (amended): for every oracle choice and every frame — (a) a frame
shorter than 4 bytes causes no callback at all; (b) an error-type frame
always invokes the error callback exactly once, never the result callback,
and raises nothing (a truncated error payload yields the fixed
incomplete-data detail); (c) a full-server-response frame whose declared
payload does not fit is dropped silently, with no callback; (d) a gzip
failure invokes only the error callback with a decompression detail;
(e) a payload whose JSON decoding fails with `json.JSONDecodeError` invokes
only the error callback with a parse detail; (f) a payload on which the
decode/parse/access sequence raises any other exception (non-UTF-8 bytes,
non-object JSON shapes) propagates the exception out of the parser with no
callback at all; (g) the result callback fires only for a well-formed full
server response, never together with an error call or an exception.  In all
malformed cases no partial state change occurs (the parser's only
observable actions are the listed callbacks). -/
theorem C9_malformed_frames (gz : List Nat → Option (List Nat))
    (js : List Nat → JsonParse) (dec : List Nat → String)
    (data : List Nat) :
    (data.length < 4 → parseResponse gz js dec data = ⟨[], [], false⟩) ∧
    (4 ≤ data.length → msgTypeOf data = 15 →
      (parseResponse gz js dec data).resCalls = [] ∧
      (parseResponse gz js dec data).errCalls.length = 1 ∧
      (parseResponse gz js dec data).raised = false) ∧
    (4 ≤ data.length → msgTypeOf data = 9 →
      data.length < respOffset data + 4 + payloadSizeOf data →
      parseResponse gz js dec data = ⟨[], [], false⟩) ∧
    (4 ≤ data.length → msgTypeOf data = 9 →
      respOffset data + 4 + payloadSizeOf data ≤ data.length →
      compressOf data = 1 → gz (payloadOf data) = Option.none →
      parseResponse gz js dec data = ⟨["数据解压失败"], [], false⟩) ∧
    (∀ p, 4 ≤ data.length → msgTypeOf data = 9 →
      respOffset data + 4 + payloadSizeOf data ≤ data.length →
      (if compressOf data = 1 then gz (payloadOf data)
       else some (payloadOf data)) = some p →
      js p = .jsonError →
      parseResponse gz js dec data = ⟨["结果解析失败"], [], false⟩) ∧
    (∀ p, 4 ≤ data.length → msgTypeOf data = 9 →
      respOffset data + 4 + payloadSizeOf data ≤ data.length →
      (if compressOf data = 1 then gz (payloadOf data)
       else some (payloadOf data)) = some p →
      js p = .raised →
      parseResponse gz js dec data = ⟨[], [], true⟩) ∧
    ((parseResponse gz js dec data).resCalls ≠ [] →
      (parseResponse gz js dec data).errCalls = [] ∧
      (parseResponse gz js dec data).raised = false ∧
      4 ≤ data.length ∧ msgTypeOf data = 9 ∧
      respOffset data + 4 + payloadSizeOf data ≤ data.length) := by
  refine ⟨?_, ?_, ?_, ?_, ?_, ?_, ?_⟩
  · intro hlt
    rw [parseResponse, if_pos hlt]
  · intro hge hty
    rw [parseResponse, if_neg (by omega), if_pos hty]
    split
    · simp
    · simp
  · intro hge hty hlt
    rw [parseResponse, if_neg (by omega), if_neg (by omega), if_pos hty]
    by_cases hoff : data.length < respOffset data + 4
    · rw [if_pos hoff]
    · rw [if_neg hoff, if_pos hlt]
  · intro hge hty hfit hcmp hgz
    rw [parseResponse, if_neg (by omega), if_neg (by omega), if_pos hty,
      if_neg (by omega), if_neg (by omega)]
    simp [hcmp, hgz]
  · intro p hge hty hfit hp hjs
    rw [parseResponse, if_neg (by omega), if_neg (by omega), if_pos hty,
      if_neg (by omega), if_neg (by omega), hp]
    simp [hjs]
  · intro p hge hty hfit hp hjs
    rw [parseResponse, if_neg (by omega), if_neg (by omega), if_pos hty,
      if_neg (by omega), if_neg (by omega), hp]
    simp [hjs]
  · intro hres
    by_cases h4 : data.length < 4
    · rw [parseResponse, if_pos h4] at hres
      simp at hres
    · by_cases hty15 : msgTypeOf data = 15
      · rw [parseResponse, if_neg h4, if_pos hty15] at hres
        split at hres <;> simp at hres
      · by_cases hty9 : msgTypeOf data = 9
        · by_cases hfit : data.length < respOffset data + 4 + payloadSizeOf data
          · by_cases hoff : data.length < respOffset data + 4
            · rw [parseResponse, if_neg h4, if_neg hty15, if_pos hty9,
                if_pos hoff] at hres
              simp at hres
            · rw [parseResponse, if_neg h4, if_neg hty15, if_pos hty9,
                if_neg hoff, if_pos hfit] at hres
              simp at hres
          · rw [parseResponse, if_neg h4, if_neg hty15, if_pos hty9,
              if_neg (by omega), if_neg hfit] at hres ⊢
            cases hc : (if compressOf data = 1 then gz (payloadOf data)
                else some (payloadOf data)) with
            | none =>
                rw [hc] at hres
                simp at hres
            | some p =>
                rw [hc] at hres
                cases hj : js p with
                | jsonError => simp [hj] at hres
                | raised => simp [hj] at hres
                | ok j =>
                    by_cases hjr : j.hasResult = true
                    · refine ⟨?_, ?_, by omega, hty9, by omega⟩ <;>
                        simp [hj, hjr]
                    · simp [hj, hjr] at hres
        · rw [parseResponse, if_neg h4, if_neg hty15, if_neg hty9] at hres
          simp at hres

/-- C9 witness: a 4-byte error-type frame (header byte 1 = 0xF0) yields
exactly one error call, no result call, and no uncaught exception. -/
theorem C9_malformed_frames_witness :
    (parseResponse (fun _ => Option.none) (fun _ => JsonParse.raised)
      (fun _ => "") [17, 240, 1, 0]).resCalls = [] ∧
    (parseResponse (fun _ => Option.none) (fun _ => JsonParse.raised)
      (fun _ => "") [17, 240, 1, 0]).errCalls.length = 1 ∧
    (parseResponse (fun _ => Option.none) (fun _ => JsonParse.raised)
      (fun _ => "") [17, 240, 1, 0]).raised = false :=
  (C9_malformed_frames (fun _ => Option.none) (fun _ => JsonParse.raised)
    (fun _ => "") [17, 240, 1, 0]).2.1 (by decide) (by decide)

end VoiceMemo
